import Mathlib

/-!
Verification of the query-routing and retrieval-scoring core of the
RAG-Agent repository (a shallow embedding in Lean 4).

Conventions of the embedding:
* Python strings are Lean `String`s; keyword containment (`k in s`) is
  substring containment on the character list; `str.lower()` is modelled
  with ASCII `Char.toLower`, and `str.split()` splits on whitespace runs.
* Python floats that carry similarity scores and confidences are modelled
  as exact rationals `ℚ`.
* External collaborators (vector search, the LLM call, the weather
  provider, the response formatter) are passed in as explicit parameters:
  a collaborator that can raise is a value of `Call α`, either a returned
  value or a raised message, mirroring Python exception flow.
* The regular-expression phases (location patterns in
  `DecisionNode.classify_query` and `WeatherNode.extract_location`) are
  abstracted as parameters (`location_score : ℕ`, resp. an `Option`
  outcome of the pattern loop); the claims below quantify over them or
  hypothesise their failure, exactly as the claims are phrased.
-/

/-- Python substring containment: `needle in hay` for strings. -/
def containsSub (needle hay : List Char) : Bool :=
  match hay with
  | [] => needle.isEmpty
  | _ :: t => needle.isPrefixOf hay || containsSub needle t

/-- `query.lower()` as a character list (ASCII lowering). -/
def lower_chars (s : String) : List Char :=
  s.toList.map Char.toLower

/-- One step of whitespace splitting, consumed by `foldr`. -/
def splitStepWS (c : Char) (acc : List (List Char) × List Char) :
    List (List Char) × List Char :=
  if c.isWhitespace then
    if acc.2.isEmpty then acc else (acc.2 :: acc.1, [])
  else (acc.1, c :: acc.2)

/-- Python `str.split()`: maximal non-whitespace runs, no empty words. -/
def pySplitWS (s : List Char) : List (List Char) :=
  let r := s.foldr splitStepWS ([], [])
  if r.2.isEmpty then r.1 else r.2 :: r.1

/-- Weather keyword table of `DecisionNode.__init__` (note the source
lists `temperature` twice; the duplicate is kept faithfully). -/
def weather_keywords : List String :=
  ["weather", "temperature", "forecast", "rain", "snow", "sunny", "cloudy",
   "humidity", "wind", "storm", "climate", "temperature", "degrees",
   "celsius", "fahrenheit", "hot", "cold", "warm", "cool"]

/-- Document keyword table of `DecisionNode.__init__`. -/
def document_keywords : List String :=
  ["document", "pdf", "file", "text", "content", "information",
   "what does", "what is", "define", "definition", "explain", "describe",
   "tell me about", "summarize", "summary", "overview", "find", "purpose",
   "objective", "objectives", "core tasks", "according to", "in the document",
   "based on the document"]

/-- `sum(1 for keyword in keywords if keyword in query_lower)`. -/
def keyword_count (keywords : List String) (query_lower : List Char) : ℕ :=
  (keywords.filter (fun k => containsSub k.toList query_lower)).length

/-- `DecisionNode.classify_query`.  The location-pattern regex phase is
abstracted by the parameter `location_score`; every claim about this
function quantifies over all its values. -/
def classify_query (location_score : ℕ) (query : String) : String :=
  let query_lower := lower_chars query
  let weather_score0 := keyword_count weather_keywords query_lower
  let document_score := keyword_count document_keywords query_lower
  let weather_score :=
    if weather_score0 > 0 then weather_score0 + location_score * 2
    else weather_score0
  if weather_score > document_score ∧ weather_score > 0 then "weather"
  else if document_score ≥ weather_score ∧ document_score > 0 then "document"
  else "document"

/-- `DecisionNode.should_continue`, on the two state fields it reads
(`query_classification`, `has_documents`). -/
def should_continue (query_classification : String) (has_documents : Bool) :
    String :=
  if query_classification = "weather" then "weather"
  else if query_classification = "document" then "rag"
  else if has_documents then "rag" else "fallback"

/-- A chunk as returned by `RAGService.search_similar_chunks` (the fields
`query_documents` reads). -/
structure RetrievedChunk where
  text : String
  source : String
  page_range : String
  score : ℚ
deriving DecidableEq, Repr

/-- A source entry as assembled by `RAGService.query_documents`. -/
structure SourceRef where
  text : String
  source : String
  page_range : String
  score : ℚ
deriving DecidableEq, Repr

/-- The dictionary returned by `RAGService.query_documents`. -/
structure RagResult where
  answer : String
  sources : List SourceRef
  confidence : ℚ
deriving DecidableEq, Repr

/-- The fixed answer of `query_documents` for an empty retrieval. -/
def not_found_answer : String :=
  "I couldn't find any relevant information in the documents to answer your question."

/-- `chunk["text"][:200] + "..." if len(...) > 200 else chunk["text"]`. -/
def truncate_excerpt (t : String) : String :=
  if t.length > 200 then t.take 200 ++ "..." else t

/-- `RAGService.query_documents`, with the retrieval outcome
(`similar_chunks`) and the LLM answer (`answer_question`'s return value)
passed in as parameters.  The second component of the result records
whether `answer_question` was invoked. -/
def query_documents (llm_answer : String) (similar_chunks : List RetrievedChunk) :
    RagResult × Bool :=
  match similar_chunks with
  | [] => (⟨not_found_answer, [], 0⟩, false)
  | _ :: _ =>
    let sources := similar_chunks.map fun c =>
      SourceRef.mk (truncate_excerpt c.text) c.source c.page_range c.score
    let avg_score :=
      (similar_chunks.map RetrievedChunk.score).sum / (similar_chunks.length : ℚ)
    let confidence := min (avg_score * 100) 100
    (⟨llm_answer, sources, confidence⟩, true)

/-- The acceptance gate of `RAGNode.process` (source line 30):
`rag_result["confidence"] > 0.3`. -/
def rag_node_accept (confidence : ℚ) : Bool :=
  confidence > 3 / 10

/-- The rejection message of `RAGNode.process` (source line 33). -/
def rag_reject_response : String :=
  "I couldn't find relevant information in the documents to answer your question. Please try rephrasing or ask about a different topic."

/-- Weather data as handed back by the weather service: an optional
`error` entry plus the remaining payload, which the core only ever passes
to the formatter. -/
structure WeatherData where
  error : Option String
  payload : String
deriving DecidableEq, Repr

/-- The mutable per-request state dictionary, restricted to the fields the
verified nodes read or write. -/
structure AgentState where
  query : String := ""
  response : String := ""
  response_type : String := ""
  error : Option String := none
  has_documents : Bool := false
  location_used : Option String := none
  weather_data : Option WeatherData := none
  rag_result : Option RagResult := none
  confidence : Option ℚ := none
  sources : List SourceRef := []
deriving DecidableEq, Repr

/-- `RAGNode.process` on the success path, with the retrieval outcome, the
LLM answer and the response formatter (`_format_rag_response`) passed in
as parameters. -/
def rag_node_process (llm_answer : String) (similar_chunks : List RetrievedChunk)
    (fmt : RagResult → String) (state : AgentState) : AgentState :=
  let rag_result := (query_documents llm_answer similar_chunks).1
  let response :=
    if rag_node_accept rag_result.confidence then fmt rag_result
    else rag_reject_response
  { state with
    rag_result := some rag_result
    response := response
    response_type := "document"
    confidence := some rag_result.confidence
    sources := rag_result.sources }

/-- One page record of `process_pdf`'s `page_texts`. -/
structure PageText where
  page_num : ℕ
  text : String
deriving DecidableEq, Repr

/-- `set(text.lower().split())`, as a deduplicated word list. -/
def word_set (s : String) : List (List Char) :=
  (pySplitWS (s.toList.map Char.toLower)).dedup

/-- `len(chunk_words.intersection(page_words))` (the first argument is
already deduplicated). -/
def overlap_count (chunk_words page_words : List (List Char)) : ℕ :=
  (chunk_words.filter (fun w => page_words.contains w)).length

/-- The scanning loop of `_find_chunk_page_range`: the accumulator is
`(best_match_score, best_page)` and an update happens only on a strict
improvement. -/
def page_scan (chunk_words : List (List Char)) :
    List PageText → ℕ × ℕ → ℕ × ℕ
  | [], acc => acc
  | p :: rest, acc =>
    let overlap := overlap_count chunk_words (word_set p.text)
    page_scan chunk_words rest (if overlap > acc.1 then (overlap, p.page_num) else acc)

/-- `RAGService._find_chunk_page_range`. -/
def find_chunk_page_range (chunk : String) (page_texts : List PageText) : String :=
  let chunk_words := word_set chunk
  let best := page_scan chunk_words page_texts (0, 1)
  if best.1 > 3 then toString best.2
  else toString (max 1 (best.2 - 1)) ++ "-" ++ toString (best.2 + 1)

/-- The maximum word-overlap any page achieves against the chunk. -/
def max_overlap (chunk_words : List (List Char)) (pages : List PageText) : ℕ :=
  (pages.map (fun p => overlap_count chunk_words (word_set p.text))).foldr max 0

/-- The page number of the first-scanned page achieving overlap `m`
(default 1 when none does). -/
def first_page_with (chunk_words : List (List Char)) (m : ℕ) :
    List PageText → ℕ
  | [] => 1
  | p :: rest =>
    if overlap_count chunk_words (word_set p.text) = m then p.page_num
    else first_page_with chunk_words m rest

/-- Page attribution as worded by the claim: the best page is the
first-scanned page of maximum overlap (a page of the sequence), and the
single-page/range choice is made on that maximum. -/
def claimed_attribution (chunk : String) (pages : List PageText) : String :=
  let chunk_words := word_set chunk
  let m := max_overlap chunk_words pages
  let best_page := first_page_with chunk_words m pages
  if m > 3 then toString best_page
  else toString (max 1 (best_page - 1)) ++ "-" ++ toString (best_page + 1)

/-- Outcome of calling a Python function that may raise: either a returned
value or a raised exception message. -/
inductive Call (α : Type) where
  | raises (msg : String)
  | returns (val : α)
deriving DecidableEq, Repr

/-- The excluded-word set of `WeatherNode.extract_location`'s fallback. -/
def excluded_words : List String :=
  ["What", "Is", "The", "Weather", "Temperature", "Forecast", "In", "At",
   "For", "Tell", "Me", "How"]

/-- The fallback scan of `extract_location`:
`word[0].isupper() and len(word) > 2 and word not in excluded_words`
over `query.split()`. -/
def capitalized_words (query : String) : List (List Char) :=
  (pySplitWS query.toList).filter fun w =>
    (w.headD ' ').isUpper && decide (w.length > 2) &&
      !((excluded_words.map String.toList).contains w)

/-- `WeatherNode.extract_location`.  The regular-expression pattern loop
is abstracted by `pattern_loc`: `some loc` models a pattern match that
produced the (city, country) pair `loc`, `none` models the loop falling
through with no pattern producing a location. -/
def extract_location (pattern_loc : Option (String × Option String))
    (query : String) : String × Option String :=
  match pattern_loc with
  | some loc => loc
  | none =>
    match capitalized_words query with
    | w :: _ => (⟨w⟩, none)
    | [] => ("London", none)

/-- The forecast keyword table of `WeatherNode.determine_query_type`. -/
def forecast_keywords : List String :=
  ["forecast", "tomorrow", "next week", "upcoming", "future"]

/-- `WeatherNode.determine_query_type`. -/
def determine_query_type (query : String) : String :=
  if forecast_keywords.any (fun k => containsSub k.toList (lower_chars query)) then
    "forecast"
  else "current"

/-- `WeatherNode.process`.  The weather service is the parameter `svc`
(first argument: whether the forecast variant is called), the response
formatter (`format_weather_response`) is `fmt`, and the pattern phase of
`extract_location` is `pattern_loc`.  Besides the updated state, the pair
of (city, country) arguments passed to the service call is returned, so
that call arguments are observable. -/
def weather_node_process (svc : Bool → String → Option String → Call WeatherData)
    (fmt : WeatherData → String) (pattern_loc : Option (String × Option String))
    (state : AgentState) : AgentState × (String × Option String) :=
  let loc := extract_location pattern_loc state.query
  let wants_forecast := determine_query_type state.query = "forecast"
  match svc wants_forecast loc.1 loc.2 with
  | Call.raises e =>
    ({ state with
        response := "❌ Error processing weather request: " ++ e
        response_type := "error"
        error := some e }, loc)
  | Call.returns weather_data =>
    let response :=
      match weather_data.error with
      | some err => "❌ " ++ err
      | none => fmt weather_data
    ({ state with
        weather_data := some weather_data
        response := response
        response_type := "weather"
        location_used := some (match loc.2 with
          | some cc => loc.1 ++ ", " ++ cc
          | none => loc.1) }, loc)

/-- `RAGAgent._weather_wrapper`: the node-boundary failure trap of the
orchestrator.  `node` is the wrapped node body (which may itself raise);
on a raise the wrapper records the prefixed error and returns the state
otherwise unchanged. -/
def weather_wrapper (node : AgentState → Call AgentState)
    (state : AgentState) : AgentState :=
  match node state with
  | Call.returns s => s
  | Call.raises e => { state with error := some ("Weather node error: " ++ e) }

/-- The initial state built by `RAGAgent.process_query`. -/
def initial_request_state (query : String) (has_docs : Bool) : AgentState :=
  { query := query, response := "", response_type := "", error := none,
    has_documents := has_docs }

/-- `RAGAgent.process_query`: the pre-graph `has_documents` probe is the
parameter `probe`, graph execution is the parameter `graph` (both may
raise). -/
def process_query (probe : Call Bool) (graph : AgentState → Call AgentState)
    (query : String) : AgentState :=
  let has_docs :=
    match probe with
    | Call.returns b => b
    | Call.raises _ => false
  match graph (initial_request_state query has_docs) with
  | Call.returns s => s
  | Call.raises e =>
    { query := query
      response := "❌ Error processing query: " ++ e
      response_type := "error"
      error := some e }

/-- C3: for every pair (classification, has_documents) in
{weather, document, unknown} x {true, false}, `should_continue` returns
exactly one of weather / rag / fallback, following the transition table:
weather maps to weather, document maps to rag, unknown maps to rag when
documents are indexed and to fallback otherwise. -/
theorem C3_router_transition_table (c : String) (h : Bool)
    (hc : c = "weather" ∨ c = "document" ∨ c = "unknown") :
    (should_continue c h = "weather" ∨ should_continue c h = "rag" ∨
      should_continue c h = "fallback") ∧
    (should_continue c h = "weather" ↔ c = "weather") ∧
    (should_continue c h = "rag" ↔ (c = "document" ∨ (c = "unknown" ∧ h = true))) ∧
    (should_continue c h = "fallback" ↔ (c = "unknown" ∧ h = false)) := by
  rcases hc with rfl | rfl | rfl <;> cases h <;> decide

/-- C3 witness: the transition table at (unknown, true). -/
theorem C3_router_transition_table_witness :
    (should_continue "unknown" true = "weather" ∨
      should_continue "unknown" true = "rag" ∨
      should_continue "unknown" true = "fallback") ∧
    (should_continue "unknown" true = "weather" ↔ ("unknown" : String) = "weather") ∧
    (should_continue "unknown" true = "rag" ↔
      (("unknown" : String) = "document" ∨ (("unknown" : String) = "unknown" ∧ true = true))) ∧
    (should_continue "unknown" true = "fallback" ↔
      (("unknown" : String) = "unknown" ∧ true = false)) :=
  C3_router_transition_table "unknown" true (Or.inr (Or.inr rfl))

/-- C4: for every query whose weather score and document score are both 0,
`classify_query` returns document, and for no input does it return
unknown (quantified over every value of the abstracted location score). -/
theorem C4_zero_scores_default_document (location_score : ℕ) (query : String) :
    classify_query location_score query ≠ "unknown" ∧
    (keyword_count weather_keywords (lower_chars query) = 0 →
      keyword_count document_keywords (lower_chars query) = 0 →
      classify_query location_score query = "document") := by
  constructor
  · simp only [classify_query]
    split_ifs <;> decide
  · intro h1 h2
    simp only [classify_query, h1, h2]
    split_ifs <;> first | rfl | (exfalso; omega)

/-- C4 witness: the keyword-free query "hello" classifies as document. -/
theorem C4_zero_scores_default_document_witness :
    classify_query 0 "hello" ≠ "unknown" ∧ classify_query 0 "hello" = "document" :=
  ⟨(C4_zero_scores_default_document 0 "hello").1,
   (C4_zero_scores_default_document 0 "hello").2 (by decide) (by decide)⟩

/-- C8: a query with at least one weather keyword and no document keyword
classifies as weather; a query with at least one document keyword and no
weather keyword classifies as document (for every location score). -/
theorem C8_keyword_classification (location_score : ℕ) (query : String) :
    (1 ≤ keyword_count weather_keywords (lower_chars query) →
      keyword_count document_keywords (lower_chars query) = 0 →
      classify_query location_score query = "weather") ∧
    (1 ≤ keyword_count document_keywords (lower_chars query) →
      keyword_count weather_keywords (lower_chars query) = 0 →
      classify_query location_score query = "document") := by
  constructor
  · intro hw hd
    simp only [classify_query, hd]
    split_ifs <;> first | rfl | (exfalso; omega)
  · intro hd hw
    simp only [classify_query, hw]
    split_ifs <;> first | rfl | (exfalso; omega)

/-- C8 witness: "rain" routes to weather, "explain this" to document. -/
theorem C8_keyword_classification_witness :
    classify_query 0 "rain" = "weather" ∧
    classify_query 0 "explain this" = "document" :=
  ⟨(C8_keyword_classification 0 "rain").1 (by decide) (by decide),
   (C8_keyword_classification 0 "explain this").2 (by decide) (by decide)⟩

/-- C9: a failing has-documents probe is downgraded to
`has_documents = false`: the request is processed exactly as if the probe
had returned false, so the probe failure reaches neither the caller nor
the response. -/
theorem C9_probe_failure_downgraded (msg : String)
    (graph : AgentState → Call AgentState) (query : String) :
    process_query (Call.raises msg) graph query =
      process_query (Call.returns false) graph query := rfl

/-- C6: for every retrieval result list, the computed confidence equals
min(100, 100 * mean score) when the list is non-empty; for the empty list
the result is the not-found answer with no sources and confidence 0, and
the RAG node's gate rejects it. -/
theorem C6_confidence_formula (llm_answer : String) (results : List RetrievedChunk) :
    (results ≠ [] →
      (query_documents llm_answer results).1.confidence =
        min 100 (100 * ((results.map RetrievedChunk.score).sum / (results.length : ℚ)))) ∧
    (results = [] →
      (query_documents llm_answer results).1 = ⟨not_found_answer, [], 0⟩ ∧
      rag_node_accept (query_documents llm_answer results).1.confidence = false) := by
  constructor
  · intro h
    match results with
    | [] => exact absurd rfl h
    | c :: rest =>
      simp only [query_documents]
      rw [min_comm, mul_comm]
  · intro h
    subst h
    exact ⟨rfl, by norm_num [query_documents, rag_node_accept]⟩

/-- C6 witness: a single result of score 1/2, and the empty list. -/
theorem C6_confidence_formula_witness :
    (query_documents "A" [⟨"t", "s", "1", 1/2⟩]).1.confidence =
      min 100 (100 * ((([⟨"t", "s", "1", 1/2⟩] : List RetrievedChunk).map
        RetrievedChunk.score).sum / (([⟨"t", "s", "1", 1/2⟩] : List RetrievedChunk).length : ℚ))) ∧
    ((query_documents "A" ([] : List RetrievedChunk)).1 = ⟨not_found_answer, [], 0⟩ ∧
      rag_node_accept (query_documents "A" ([] : List RetrievedChunk)).1.confidence = false) :=
  ⟨(C6_confidence_formula "A" [⟨"t", "s", "1", 1/2⟩]).1 (by simp),
   (C6_confidence_formula "A" []).2 rfl⟩

/-- C1: at retrieval scores [0.1, 0.2] the computed confidence is 15 on
the 0-100 scale, yet the RAG node's gate accepts (its comparison
`confidence > 0.3` is against the percentage value) and the node returns
the formatted answer, not the rejection message, although 15 is not
greater than 30 as the claim requires. -/
theorem C1_gate_accepts_confidence_fifteen :
    (query_documents "ANSWER" [⟨"t1", "s", "1", 1/10⟩, ⟨"t2", "s", "1", 2/10⟩]).1.confidence = 15 ∧
    rag_node_accept 15 = true ∧
    ¬ ((15 : ℚ) > 30) ∧
    (rag_node_process "ANSWER" [⟨"t1", "s", "1", 1/10⟩, ⟨"t2", "s", "1", 2/10⟩]
        (fun _ => "FORMATTED") {}).response = "FORMATTED" ∧
    "FORMATTED" ≠ rag_reject_response := by
  refine ⟨by norm_num [query_documents], by norm_num [rag_node_accept], by norm_num, ?_, by decide⟩
  have hacc : rag_node_accept
      ((query_documents "ANSWER" [⟨"t1", "s", "1", 1/10⟩, ⟨"t2", "s", "1", 2/10⟩]).1.confidence) = true := by
    norm_num [rag_node_accept, query_documents]
  simp only [rag_node_process]
  rw [hacc]
  simp

/-- C2 counterexample: for the single result of score 0.001 the gate
computes accept = false (confidence 0.1), yet the answer-synthesis call
was made, refuting the claim that it is invoked only on accept. -/
theorem C2_counterexample_answer_called_on_reject :
    (query_documents "ANSWER" [⟨"t", "s", "1", 1/1000⟩]).2 = true ∧
    rag_node_accept (query_documents "ANSWER" [⟨"t", "s", "1", 1/1000⟩]).1.confidence = false :=
  ⟨rfl, by norm_num [query_documents, rag_node_accept]⟩

/-- C2 amended: the answer-synthesis operation is invoked exactly when
the retrieval result list is non-empty; the accept decision is applied
afterwards only to choose the response text. -/
theorem C2_answer_called_iff_results_nonempty (llm_answer : String)
    (results : List RetrievedChunk) :
    (query_documents llm_answer results).2 = !results.isEmpty := by
  cases results <;> rfl

/-- Characterization of the `_find_chunk_page_range` scan: starting from
`(s, p)`, it yields the maximum overlap and the first-scanned page
achieving it whenever that maximum beats `s`, and the start accumulator
otherwise. -/
theorem page_scan_characterization (cw : List (List Char)) (pages : List PageText) :
    ∀ s p : ℕ, page_scan cw pages (s, p) =
      if max_overlap cw pages > s then
        (max_overlap cw pages, first_page_with cw (max_overlap cw pages) pages)
      else (s, p) := by
  induction pages with
  | nil => intro s p; simp [page_scan, max_overlap]
  | cons q rest ih =>
    intro s p
    have hstep : page_scan cw (q :: rest) (s, p) =
        page_scan cw rest
          (if overlap_count cw (word_set q.text) > s
           then (overlap_count cw (word_set q.text), q.page_num) else (s, p)) := rfl
    have hm : max_overlap cw (q :: rest) =
        max (overlap_count cw (word_set q.text)) (max_overlap cw rest) := rfl
    have hfp : ∀ M : ℕ, first_page_with cw M (q :: rest) =
        (if overlap_count cw (word_set q.text) = M then q.page_num
         else first_page_with cw M rest) := fun _ => rfl
    rw [hstep, hm, hfp]
    set o := overlap_count cw (word_set q.text)
    set m := max_overlap cw rest
    by_cases h1 : o > s
    · rw [if_pos h1, ih o q.page_num]
      by_cases h2 : m > o
      · have hM : max o m = m := by omega
        rw [hM, if_pos h2, if_pos (by omega : m > s), if_neg (by omega : ¬ o = m)]
      · have hM : max o m = o := by omega
        rw [hM, if_neg h2, if_pos h1, if_pos rfl]
    · rw [if_neg h1, ih s p]
      by_cases h2 : m > s
      · have hM : max o m = m := by omega
        rw [hM, if_pos h2, if_pos h2, if_neg (by omega : ¬ o = m)]
      · rw [if_neg h2, if_neg (by omega : ¬ max o m > s)]

/-- C5 counterexample: with a single page numbered 2 and zero word
overlap, the code keeps the initial `best_page = 1` and returns "1-2",
while the claim's best-page rule (maximum overlap, ties to the
first-scanned page) names page 2 and yields "1-3". -/
theorem C5_counterexample_zero_overlap :
    find_chunk_page_range "beta" [⟨2, "alpha"⟩] = "1-2" ∧
    claimed_attribution "beta" [⟨2, "alpha"⟩] = "1-3" ∧
    find_chunk_page_range "beta" [⟨2, "alpha"⟩] ≠ claimed_attribution "beta" [⟨2, "alpha"⟩] :=
  ⟨by decide, by decide, by decide⟩

/-- C5 amended: attribution tracks the first-scanned page of maximum
overlap whenever some page overlaps the chunk at all, but defaults to
page 1 when the maximum overlap is 0; the single-page versus range
decision on that tracked page is as claimed. -/
theorem C5_attribution_default_page (chunk : String) (pages : List PageText) :
    find_chunk_page_range chunk pages =
      (let cw := word_set chunk
       let m := max_overlap cw pages
       let bp := if m = 0 then 1 else first_page_with cw m pages
       if m > 3 then toString bp
       else toString (max 1 (bp - 1)) ++ "-" ++ toString (bp + 1)) := by
  simp only [find_chunk_page_range]
  rw [page_scan_characterization]
  by_cases h : max_overlap (word_set chunk) pages > 0
  · rw [if_pos h, if_neg (by omega : ¬ max_overlap (word_set chunk) pages = 0)]
  · have h0 : max_overlap (word_set chunk) pages = 0 := by omega
    rw [h0]
    simp

/-- C7 amended: when the weather-service call raises, the node's own
handler produces `response_type = "error"` with the raw message in
`state.error` and an error-marked response; when the wrapped node body
itself raises, the orchestrator's wrapper stores the prefixed
"Weather node error: ..." message and leaves every other field, response
and response type included, unchanged. -/
theorem C7_node_and_wrapper_error_paths
    (svc : Bool → String → Option String → Call WeatherData)
    (fmt : WeatherData → String) (pattern_loc : Option (String × Option String))
    (st : AgentState) (e : String) (node : AgentState → Call AgentState) :
    (svc (determine_query_type st.query = "forecast")
        (extract_location pattern_loc st.query).1
        (extract_location pattern_loc st.query).2 = Call.raises e →
      ((weather_node_process svc fmt pattern_loc st).1.response_type = "error" ∧
       (weather_node_process svc fmt pattern_loc st).1.error = some e ∧
       (weather_node_process svc fmt pattern_loc st).1.response =
         "❌ Error processing weather request: " ++ e)) ∧
    (node st = Call.raises e →
      weather_wrapper node st = { st with error := some ("Weather node error: " ++ e) }) := by
  constructor
  · intro h
    simp only [weather_node_process]
    rw [h]
    exact ⟨rfl, rfl, rfl⟩
  · intro h
    simp only [weather_wrapper]
    rw [h]

/-- C7 witness: a service raising "boom", and a node body raising
"boom". -/
theorem C7_node_and_wrapper_error_paths_witness :
    ((weather_node_process (fun _ _ _ => Call.raises "boom") (fun _ => "") none
        { query := "what is the weather" }).1.response_type = "error" ∧
     (weather_node_process (fun _ _ _ => Call.raises "boom") (fun _ => "") none
        { query := "what is the weather" }).1.error = some "boom" ∧
     (weather_node_process (fun _ _ _ => Call.raises "boom") (fun _ => "") none
        { query := "what is the weather" }).1.response =
       "❌ Error processing weather request: " ++ "boom") ∧
    weather_wrapper (fun _ => Call.raises "boom") { query := "what is the weather" } =
      { query := "what is the weather", error := some ("Weather node error: " ++ "boom") } :=
  ⟨(C7_node_and_wrapper_error_paths (fun _ _ _ => Call.raises "boom") (fun _ => "")
      none { query := "what is the weather" } "boom" (fun _ => Call.raises "boom")).1 rfl,
   (C7_node_and_wrapper_error_paths (fun _ _ _ => Call.raises "boom") (fun _ => "")
      none { query := "what is the weather" } "boom" (fun _ => Call.raises "boom")).2 rfl⟩

/-- C7 counterexample: with the handler raising "boom" inside the node,
the final state after the wrapper has `response_type = "error"` but
`state.error` is the raw message, not the "<node> error: <message>" form
the claim requires. -/
theorem C7_counterexample_unprefixed_error :
    (weather_wrapper (fun s => Call.returns
        (weather_node_process (fun _ _ _ => Call.raises "boom") (fun _ => "") none s).1)
      { query := "what is the weather" }).response_type = "error" ∧
    (weather_wrapper (fun s => Call.returns
        (weather_node_process (fun _ _ _ => Call.raises "boom") (fun _ => "") none s).1)
      { query := "what is the weather" }).error = some "boom" ∧
    (some "boom" : Option String) ≠ some ("Weather node error: " ++ "boom") :=
  ⟨rfl, rfl, by decide⟩

/-- C10: when the pattern loop of `extract_location` produces no location
and the query has no capitalized word longer than 2 characters outside
the excluded set, the node falls back to ("London", none) and the weather
service is called with the city "London" and no country. -/
theorem C10_default_location_london (q : String)
    (svc : Bool → String → Option String → Call WeatherData)
    (fmt : WeatherData → String) (st : AgentState)
    (hq : st.query = q) (hcap : capitalized_words q = []) :
    extract_location none q = ("London", none) ∧
    (weather_node_process svc fmt none st).2 = ("London", none) := by
  have h1 : extract_location none q = ("London", none) := by
    simp only [extract_location, hcap]
  refine ⟨h1, ?_⟩
  simp only [weather_node_process, hq, h1]
  cases svc (decide (determine_query_type q = "forecast")) ("London", (none : Option String)).1
      ("London", (none : Option String)).2 <;> rfl

/-- C10 witness: the query "will it be nice today". -/
theorem C10_default_location_london_witness :
    extract_location none "will it be nice today" = ("London", none) ∧
    (weather_node_process (fun _ _ _ => Call.returns ⟨none, "W"⟩) (fun _ => "ok") none
        { query := "will it be nice today" }).2 = ("London", none) :=
  C10_default_location_london "will it be nice today"
    (fun _ _ _ => Call.returns ⟨none, "W"⟩) (fun _ => "ok")
    { query := "will it be nice today" } rfl (by decide)
